import Mathlib

/-!
Shallow embedding of `src/app.py` (the "lingua-trainer" English-speaking
assessment agent): the learner record, the four conversation stages
(GreetingCoach, SkillEvaluator, ScenarioTrainer, PerformanceReviewer), their
transition tools (`store_basics`, `assign_rating`, `mark_topic`, `wrap_up`),
the bilingual report built inside `wrap_up`, its JSON serialization
(`json.dumps(report, ensure_ascii=False, indent=2)`), the S3 put call, and the
observable side-effect trace of `wrap_up`.
-/

namespace Lingua

/-- The `LearnerRecord` dataclass (src/app.py lines 43-50): six optional
string fields, all initially `None`. -/
structure LearnerRecord where
  purpose : Option String
  occupation : Option String
  estimated_skill : Option String
  practice_topic : Option String
  highlights : Option String
  improvements : Option String
  deriving DecidableEq, Repr

/-- The record as constructed by `LearnerRecord()` in `main_entry`
(src/app.py line 219): every field defaults to `None`. -/
def LearnerRecord.init : LearnerRecord :=
  { purpose := none, occupation := none, estimated_skill := none,
    practice_topic := none, highlights := none, improvements := none }

/-- Identities of the four Agent subclasses, in source order
(Intake, Proficiency, Scenario, Feedback in the spec's naming). -/
inductive StageId where
  | GreetingCoach
  | SkillEvaluator
  | ScenarioTrainer
  | PerformanceReviewer
  deriving DecidableEq, Repr

/-- A call to `session.generate_reply(...)`: the optional `instructions`
argument and the `allow_interruptions` flag. -/
structure GenCall where
  instructions : Option String
  allowInterruptions : Bool
  deriving DecidableEq, Repr

/-- The `on_enter` bodies of the four stages (src/app.py lines 71-72, 98-99,
124-125, 149-150): each is a single `self.session.generate_reply(
allow_interruptions=False)` call with no `instructions` argument. -/
def onEnterCalls : StageId → List GenCall
  | .GreetingCoach => [{ instructions := none, allowInterruptions := false }]
  | .SkillEvaluator => [{ instructions := none, allowInterruptions := false }]
  | .ScenarioTrainer => [{ instructions := none, allowInterruptions := false }]
  | .PerformanceReviewer => [{ instructions := none, allowInterruptions := false }]

/-- Result of a non-terminal stage transition tool: the mutated userdata
record, the next agent returned (always paired with a transitional
utterance string in the Python tuple return). -/
structure Handoff where
  record : LearnerRecord
  next : Option StageId
  utterance : String
  deriving DecidableEq, Repr

/-- `GreetingCoach.store_basics` (src/app.py lines 74-81): writes `purpose`
and `occupation` into the userdata record and returns a `SkillEvaluator`
with a fixed transitional utterance. -/
def store_basics (rec : LearnerRecord) (purpose occupation : String) : Handoff :=
  { record := { rec with purpose := some purpose, occupation := some occupation }
    next := some .SkillEvaluator
    utterance := "Great! Let\x27s quickly check your English fluency." }

/-- `SkillEvaluator.assign_rating` (src/app.py lines 101-104): writes
`estimated_skill` and returns a `ScenarioTrainer`. -/
def assign_rating (rec : LearnerRecord) (rating : String) : Handoff :=
  { record := { rec with estimated_skill := some rating }
    next := some .ScenarioTrainer
    utterance := "Your level is around " ++ rating ++ ". Let’s practice with a scenario." }

/-- `ScenarioTrainer.mark_topic` (src/app.py lines 127-130): writes
`practice_topic` and returns a `PerformanceReviewer`. -/
def mark_topic (rec : LearnerRecord) (topic : String) : Handoff :=
  { record := { rec with practice_topic := some topic }
    next := some .PerformanceReviewer
    utterance := "Nice job! You’ve finished the " ++ topic ++ " scenario." }

/-- Python truthiness fallback `x or d` on an `Optional[str] x`: `None` and
the empty string are falsy, so both fall back to `d`. Models the
`ctx.userdata.purpose or "N/A"` expressions at src/app.py lines 166-169. -/
def pyOr (x : Option String) (d : String) : String :=
  match x with
  | none => d
  | some s => if s = "" then d else s

/-- The `english_summary` dict literal (src/app.py lines 165-172), read from
the post-write userdata record; the `Strengths` and `Areas to Improve`
values come verbatim from the tool arguments, with no fallback. -/
def englishSummary (rec : LearnerRecord) (strengths improvements : String) :
    List (String × String) :=
  [ ("Purpose", pyOr rec.purpose "N/A"),
    ("Occupation", pyOr rec.occupation "N/A"),
    ("Skill Estimate", pyOr rec.estimated_skill "N/A"),
    ("Scenario Practiced", pyOr rec.practice_topic "N/A"),
    ("Strengths", strengths),
    ("Areas to Improve", improvements) ]

/-- Lookup in an association-list model of a Python dict. -/
def dictGet (d : List (String × String)) (k : String) : Option String :=
  (d.find? (fun p => p.1 == k)).map Prod.snd

/-- The `arabic_summary` dict literal (src/app.py lines 174-181): the first
four values are the dict accesses `english_summary["Purpose"]` etc.; the
last two again come verbatim from the tool arguments. -/
def arabicSummary (eng : List (String × String)) (strengths improvements : String) :
    List (String × String) :=
  [ ("الهدف", (dictGet eng "Purpose").getD ""),
    ("المهنة", (dictGet eng "Occupation").getD ""),
    ("المستوى المقدر", (dictGet eng "Skill Estimate").getD ""),
    ("المشهد التدريبي", (dictGet eng "Scenario Practiced").getD ""),
    ("نقاط القوة", strengths),
    ("نقاط التحسين", improvements) ]

/-- The `report` dict (src/app.py line 183): two keys, `english` and
`arabic`. -/
structure Report where
  english : List (String × String)
  arabic : List (String × String)
  deriving DecidableEq, Repr

/-- Lower-case hex digit of a value below 16, as CPython's JSON encoder
emits in a `\uXXXX` escape. -/
def hexDigit (n : Nat) : String :=
  if n < 10 then String.singleton (Char.ofNat (48 + n))
  else String.singleton (Char.ofNat (87 + n))

/-- Four-digit hex rendering of a code point below 0x10000. -/
def hex4 (n : Nat) : String :=
  hexDigit (n / 4096 % 16) ++ hexDigit (n / 256 % 16) ++
    hexDigit (n / 16 % 16) ++ hexDigit (n % 16)

/-- How `json.dumps(..., ensure_ascii=False)` renders one character inside a
JSON string: `"` and `\` are backslash-escaped, the control characters
below 0x20 get their short escapes or a `\uXXXX` escape, and every other
character — all non-ASCII (Arabic) text included — is emitted literally. -/
def jsonEscapeChar (c : Char) : String :=
  if c = Char.ofNat 34 then "\\\""
  else if c = Char.ofNat 92 then "\\\\"
  else if c = Char.ofNat 10 then "\\n"
  else if c = Char.ofNat 9 then "\\t"
  else if c = Char.ofNat 13 then "\\r"
  else if c = Char.ofNat 8 then "\\b"
  else if c = Char.ofNat 12 then "\\f"
  else if c.toNat < 32 then "\\u" ++ hex4 c.toNat
  else String.singleton c

/-- A JSON string literal: the escaped characters between double quotes. -/
def jsonString (s : String) : String :=
  "\"" ++ String.join (s.toList.map jsonEscapeChar) ++ "\""

/-- `n` spaces of indentation. -/
def spaces (n : Nat) : String :=
  String.mk (List.replicate n ' ')

/-- The members of a string-valued JSON object at indentation `ind`, one per
line, comma-separated, as `json.dumps(..., indent=2)` lays them out. -/
def jsonMembers (ind : Nat) : List (String × String) → String
  | [] => ""
  | [(k, v)] => spaces ind ++ jsonString k ++ ": " ++ jsonString v
  | (k, v) :: rest =>
      spaces ind ++ jsonString k ++ ": " ++ jsonString v ++ ",\n" ++
        jsonMembers ind rest

/-- A string-valued JSON object whose closing brace sits at indentation
`ind`, in the layout of `json.dumps(..., indent=2)`. -/
def jsonStrObj (ind : Nat) (fs : List (String × String)) : String :=
  match fs with
  | [] => "\x7b\x7d"
  | _ => "\x7b\n" ++ jsonMembers (ind + 2) fs ++ "\n" ++ spaces ind ++ "\x7d"

/-- `json.dumps(report, ensure_ascii=False, indent=2)` (src/app.py line 193)
for the two-key report dict `{"english": ..., "arabic": ...}`. -/
def dumpsReport (r : Report) : String :=
  "\x7b\n" ++ "  " ++ jsonString "english" ++ ": " ++ jsonStrObj 2 r.english ++
    ",\n" ++ "  " ++ jsonString "arabic" ++ ": " ++ jsonStrObj 2 r.arabic ++
    "\n" ++ "\x7d"

/-- The `S3_STORAGE` bucket constant (src/app.py line 36). -/
def S3_STORAGE : String := "lingua-feedback-data"

/-- The arguments of the single `s3_resource.put_object(...)` call
(src/app.py lines 190-195). -/
structure PutCall where
  bucket : String
  key : String
  body : ByteArray
  contentType : String

/-- The externally observable events of `wrap_up`, in the order the source
lines produce them. -/
inductive WEvent where
  | interrupt
  | writeStrengths
  | writeImprovements
  | logFeedback
  | storagePut
  | logUploadSuccess
  | logStorageError
  | goodbye
  | deleteRoom
  deriving DecidableEq, Repr

/-- Everything `wrap_up` produces: the mutated record, the compiled report,
the attempted S3 put, the goodbye `generate_reply` call, the room-deletion
target, the absence of a successor agent (the Python method returns
`None`), and the ordered side-effect trace. -/
structure WrapUpResult where
  record : LearnerRecord
  report : Report
  put : PutCall
  goodbyeCall : GenCall
  deletedRoom : String
  next : Option StageId
  trace : List WEvent

/-- `PerformanceReviewer.wrap_up` (src/app.py lines 152-205). In order:
`session.interrupt()`; writes of `highlights` and `improvements` into the
userdata record; a feedback log line; construction of the english and
arabic summaries from the post-write record and the tool arguments;
the S3 `put_object` of the UTF-8 JSON body under
`lingua_feedback_<roomId>.json` inside a try/except whose handler only
logs (`storageFails` is the oracle for whether `put_object` raises); the
goodbye `generate_reply(instructions=..., allow_interruptions=False)`;
and finally `delete_room` for the current room. -/
def wrap_up (rec : LearnerRecord) (strengths improvements : String)
    (roomId : String) (storageFails : Bool) : WrapUpResult :=
  let rec2 : LearnerRecord :=
    { rec with highlights := some strengths, improvements := some improvements }
  let eng := englishSummary rec2 strengths improvements
  let ara := arabicSummary eng strengths improvements
  let report : Report := { english := eng, arabic := ara }
  let filename := "lingua_feedback_" ++ roomId ++ ".json"
  { record := rec2
    report := report
    put :=
      { bucket := S3_STORAGE
        key := filename
        body := (dumpsReport report).toUTF8
        contentType := "application/json" }
    goodbyeCall :=
      { instructions := some "Say goodbye warmly and encourage learner."
        allowInterruptions := false }
    deletedRoom := roomId
    next := none
    trace :=
      [.interrupt, .writeStrengths, .writeImprovements, .logFeedback,
       .storagePut] ++
        (if storageFails then [.logStorageError] else [.logUploadSuccess]) ++
        [.goodbye, .deleteRoom] }

/-- The per-session inputs a whole run depends on: the captured tool
arguments of each stage, the room name, and whether the storage put
raises. -/
structure SessionArgs where
  purpose : String
  occupation : String
  rating : String
  topic : String
  strengths : String
  improvements : String
  roomId : String
  storageFails : Bool

/-- Dispatch of the one transition tool each stage owns, returning the
mutated record and the successor stage identity. -/
def applyStage (s : StageId) (rec : LearnerRecord) (a : SessionArgs) :
    LearnerRecord × Option StageId :=
  match s with
  | .GreetingCoach =>
      let h := store_basics rec a.purpose a.occupation
      (h.record, h.next)
  | .SkillEvaluator =>
      let h := assign_rating rec a.rating
      (h.record, h.next)
  | .ScenarioTrainer =>
      let h := mark_topic rec a.topic
      (h.record, h.next)
  | .PerformanceReviewer =>
      let r := wrap_up rec a.strengths a.improvements a.roomId a.storageFails
      (r.record, r.next)

/-- Fuel-bounded iteration of the handoff protocol: collect the active-stage
identities until a transition returns no successor. -/
def runFrom (fuel : Nat) (s : StageId) (rec : LearnerRecord) (a : SessionArgs) :
    List StageId :=
  match fuel with
  | 0 => [s]
  | fuel + 1 =>
      match applyStage s rec a with
      | (rec2, some s2) => s :: runFrom fuel s2 rec2 a
      | (_, none) => [s]

/-- The sequence of active-stage identities of a session: `main_entry`
starts `GreetingCoach` on an all-`None` record (src/app.py lines 219,
250) and each transition installs the returned successor. -/
def sessionTrace (a : SessionArgs) : List StageId :=
  runFrom 8 .GreetingCoach .init a

/-- C1: for every session, the active stages are exactly GreetingCoach
(Intake), SkillEvaluator (Proficiency), ScenarioTrainer (Scenario),
PerformanceReviewer (Feedback) in this order: each non-terminal
transition returns exactly the next stage in the order, `wrap_up`
returns no successor, and the stage trace has no repeats or skips,
regardless of the captured argument values. -/
theorem stage_sequence_monotonic (a : SessionArgs) (rec : LearnerRecord)
    (p o rt tp s i room : String) (b : Bool) :
    sessionTrace a =
      [.GreetingCoach, .SkillEvaluator, .ScenarioTrainer, .PerformanceReviewer] ∧
    (store_basics rec p o).next = some .SkillEvaluator ∧
    (assign_rating rec rt).next = some .ScenarioTrainer ∧
    (mark_topic rec tp).next = some .PerformanceReviewer ∧
    (wrap_up rec s i room b).next = none ∧
    (sessionTrace a).Nodup := by
  have h : sessionTrace a =
      [.GreetingCoach, .SkillEvaluator, .ScenarioTrainer, .PerformanceReviewer] := rfl
  exact ⟨h, rfl, rfl, rfl, rfl, by rw [h]; decide⟩

/-- The side-effect trace of `wrap_up` written out for each value of the
storage-failure oracle (src/app.py lines 156-205, in source order). -/
theorem wrapUpTrace_eq (rec : LearnerRecord) (s i room : String) (b : Bool) :
    (wrap_up rec s i room b).trace =
      if b then
        [.interrupt, .writeStrengths, .writeImprovements, .logFeedback,
         .storagePut, .logStorageError, .goodbye, .deleteRoom]
      else
        [.interrupt, .writeStrengths, .writeImprovements, .logFeedback,
         .storagePut, .logUploadSuccess, .goodbye, .deleteRoom] := by
  cases b <;> rfl

/-- C2: in every execution of `wrap_up`, the external events occur in the
strict order interrupt, strengths write, improvements write, storage
put, goodbye turn, room deletion — in particular the put is strictly
after the profile writes and strictly before room deletion, and the
goodbye turn is strictly after the interrupt. -/
theorem wrap_up_event_order (rec : LearnerRecord) (s i room : String) (b : Bool) :
    WEvent.interrupt ∈ (wrap_up rec s i room b).trace ∧
    WEvent.writeStrengths ∈ (wrap_up rec s i room b).trace ∧
    WEvent.writeImprovements ∈ (wrap_up rec s i room b).trace ∧
    WEvent.storagePut ∈ (wrap_up rec s i room b).trace ∧
    WEvent.goodbye ∈ (wrap_up rec s i room b).trace ∧
    WEvent.deleteRoom ∈ (wrap_up rec s i room b).trace ∧
    (wrap_up rec s i room b).trace.indexOf WEvent.interrupt <
      (wrap_up rec s i room b).trace.indexOf WEvent.writeStrengths ∧
    (wrap_up rec s i room b).trace.indexOf WEvent.writeStrengths <
      (wrap_up rec s i room b).trace.indexOf WEvent.writeImprovements ∧
    (wrap_up rec s i room b).trace.indexOf WEvent.writeImprovements <
      (wrap_up rec s i room b).trace.indexOf WEvent.storagePut ∧
    (wrap_up rec s i room b).trace.indexOf WEvent.storagePut <
      (wrap_up rec s i room b).trace.indexOf WEvent.goodbye ∧
    (wrap_up rec s i room b).trace.indexOf WEvent.goodbye <
      (wrap_up rec s i room b).trace.indexOf WEvent.deleteRoom := by
  rw [wrapUpTrace_eq]
  cases b <;> simp only [if_true, if_false, Bool.false_eq_true, ite_true, ite_false] <;> decide

/-- C3: when the storage put raises, `wrap_up` logs the error and swallows
it: the goodbye turn and the room deletion still happen (after the
logged error), the returned record, report, goodbye call and successor
are exactly those of a successful run, and the goodbye instructions are
a fixed string that carries no error content. -/
theorem storage_failure_swallowed (rec : LearnerRecord) (s i room : String) :
    WEvent.logStorageError ∈ (wrap_up rec s i room true).trace ∧
    WEvent.goodbye ∈ (wrap_up rec s i room true).trace ∧
    WEvent.deleteRoom ∈ (wrap_up rec s i room true).trace ∧
    (wrap_up rec s i room true).trace.indexOf WEvent.logStorageError <
      (wrap_up rec s i room true).trace.indexOf WEvent.goodbye ∧
    (wrap_up rec s i room true).trace.indexOf WEvent.goodbye <
      (wrap_up rec s i room true).trace.indexOf WEvent.deleteRoom ∧
    (wrap_up rec s i room true).record = (wrap_up rec s i room false).record ∧
    (wrap_up rec s i room true).report = (wrap_up rec s i room false).report ∧
    (wrap_up rec s i room true).goodbyeCall = (wrap_up rec s i room false).goodbyeCall ∧
    (wrap_up rec s i room true).deletedRoom = room ∧
    (wrap_up rec s i room true).next = none ∧
    (wrap_up rec s i room true).goodbyeCall.instructions =
      some "Say goodbye warmly and encourage learner." := by
  refine ⟨?_, ?_, ?_, ?_, ?_, rfl, rfl, rfl, rfl, rfl, rfl⟩ <;>
    rw [wrapUpTrace_eq] <;> decide

/-- C9: entering any of the four stages triggers exactly one opening
dialogue-turn generation and that call disallows interruptions. -/
theorem on_enter_single_uninterruptible_turn (s : StageId) :
    (onEnterCalls s).length = 1 ∧
    (onEnterCalls s).all (fun c => c.allowInterruptions == false) = true ∧
    onEnterCalls s = [{ instructions := none, allowInterruptions := false }] := by
  cases s <;> exact ⟨rfl, rfl, rfl⟩

/-- C4: for a fully-populated profile — every field set to a non-empty
string — the compiled report has an English and an Arabic mapping of
exactly 6 distinct keys each, and for each of the 6 semantic fields the
Arabic-keyed value is string-equal to the English-keyed value. -/
theorem report_bilingual_parity (p o sk tp s i room : String) (b : Bool)
    (hg : LearnerRecord) (hp : p ≠ "") (ho : o ≠ "") (hsk : sk ≠ "")
    (htp : tp ≠ "") (hs : s ≠ "") (hi : i ≠ "") :
    let rcd : LearnerRecord :=
      { purpose := some p, occupation := some o, estimated_skill := some sk,
        practice_topic := some tp, highlights := hg.highlights,
        improvements := hg.improvements }
    let r := wrap_up rcd s i room b
    r.record =
      { purpose := some p, occupation := some o, estimated_skill := some sk,
        practice_topic := some tp, highlights := some s, improvements := some i } ∧
    r.report.english.length = 6 ∧
    r.report.arabic.length = 6 ∧
    (r.report.english.map Prod.fst).Nodup ∧
    (r.report.arabic.map Prod.fst).Nodup ∧
    dictGet r.report.arabic "الهدف" = dictGet r.report.english "Purpose" ∧
    dictGet r.report.arabic "المهنة" = dictGet r.report.english "Occupation" ∧
    dictGet r.report.arabic "المستوى المقدر" = dictGet r.report.english "Skill Estimate" ∧
    dictGet r.report.arabic "المشهد التدريبي" = dictGet r.report.english "Scenario Practiced" ∧
    dictGet r.report.arabic "نقاط القوة" = dictGet r.report.english "Strengths" ∧
    dictGet r.report.arabic "نقاط التحسين" = dictGet r.report.english "Areas to Improve" ∧
    dictGet r.report.english "Purpose" = some p ∧
    dictGet r.report.arabic "الهدف" = some p := by
  refine ⟨rfl, rfl, rfl, ?_, ?_, rfl, rfl, rfl, rfl, rfl, rfl, ?_, ?_⟩
  · rw [show (wrap_up
        { purpose := some p, occupation := some o, estimated_skill := some sk,
          practice_topic := some tp, highlights := hg.highlights,
          improvements := hg.improvements } s i room b).report.english.map Prod.fst =
        ["Purpose", "Occupation", "Skill Estimate", "Scenario Practiced",
         "Strengths", "Areas to Improve"] from rfl]
    decide
  · rw [show (wrap_up
        { purpose := some p, occupation := some o, estimated_skill := some sk,
          practice_topic := some tp, highlights := hg.highlights,
          improvements := hg.improvements } s i room b).report.arabic.map Prod.fst =
        ["الهدف", "المهنة", "المستوى المقدر", "المشهد التدريبي",
         "نقاط القوة", "نقاط التحسين"] from rfl]
    decide
  all_goals
    show some (pyOr (some p) "N/A") = some p
    rw [pyOr, if_neg hp]

/-- C7: each of the six profile fields is written by exactly one stage's
transition (purpose and occupation by `store_basics`, estimated skill by
`assign_rating`, practice topic by `mark_topic`, highlights and
improvements by `wrap_up`), the written value is exactly the captured
argument, and the three non-owner transitions leave the field as it
was. -/
theorem fields_written_by_owner_stage (rec : LearnerRecord)
    (p o rt tp s i room : String) (b : Bool) :
    (store_basics rec p o).record.purpose = some p ∧
    (store_basics rec p o).record.occupation = some o ∧
    (assign_rating rec rt).record.estimated_skill = some rt ∧
    (mark_topic rec tp).record.practice_topic = some tp ∧
    (wrap_up rec s i room b).record.highlights = some s ∧
    (wrap_up rec s i room b).record.improvements = some i ∧
    (assign_rating rec rt).record.purpose = rec.purpose ∧
    (mark_topic rec tp).record.purpose = rec.purpose ∧
    (wrap_up rec s i room b).record.purpose = rec.purpose ∧
    (assign_rating rec rt).record.occupation = rec.occupation ∧
    (mark_topic rec tp).record.occupation = rec.occupation ∧
    (wrap_up rec s i room b).record.occupation = rec.occupation ∧
    (store_basics rec p o).record.estimated_skill = rec.estimated_skill ∧
    (mark_topic rec tp).record.estimated_skill = rec.estimated_skill ∧
    (wrap_up rec s i room b).record.estimated_skill = rec.estimated_skill ∧
    (store_basics rec p o).record.practice_topic = rec.practice_topic ∧
    (assign_rating rec rt).record.practice_topic = rec.practice_topic ∧
    (wrap_up rec s i room b).record.practice_topic = rec.practice_topic ∧
    (store_basics rec p o).record.highlights = rec.highlights ∧
    (assign_rating rec rt).record.highlights = rec.highlights ∧
    (mark_topic rec tp).record.highlights = rec.highlights ∧
    (store_basics rec p o).record.improvements = rec.improvements ∧
    (assign_rating rec rt).record.improvements = rec.improvements ∧
    (mark_topic rec tp).record.improvements = rec.improvements :=
  ⟨rfl, rfl, rfl, rfl, rfl, rfl, rfl, rfl, rfl, rfl, rfl, rfl, rfl, rfl, rfl,
   rfl, rfl, rfl, rfl, rfl, rfl, rfl, rfl, rfl⟩

/-- C8: every transition mutates only the fields its stage owns —
`store_basics` updates exactly purpose and occupation, `assign_rating`
exactly the estimated skill, `mark_topic` exactly the practice topic,
and `wrap_up` exactly highlights and improvements; all other fields are
returned as they were. -/
theorem stage_frame_condition (rec : LearnerRecord)
    (p o rt tp s i room : String) (b : Bool) :
    (store_basics rec p o).record =
      { rec with purpose := some p, occupation := some o } ∧
    (assign_rating rec rt).record = { rec with estimated_skill := some rt } ∧
    (mark_topic rec tp).record = { rec with practice_topic := some tp } ∧
    (wrap_up rec s i room b).record =
      { rec with highlights := some s, improvements := some i } :=
  ⟨rfl, rfl, rfl, rfl⟩

/-- C10: the strengths and improvements entries of the report are taken
verbatim from the `wrap_up` arguments — no "N/A" fallback is applied to
them — so passing the empty string stores `some ""` in the profile and
puts `""` (not `"N/A"`) under the corresponding key in both mappings. -/
theorem empty_feedback_verbatim (rec : LearnerRecord) (s i room : String) (b : Bool) :
    dictGet (wrap_up rec s i room b).report.english "Strengths" = some s ∧
    dictGet (wrap_up rec s i room b).report.arabic "نقاط القوة" = some s ∧
    dictGet (wrap_up rec s i room b).report.english "Areas to Improve" = some i ∧
    dictGet (wrap_up rec s i room b).report.arabic "نقاط التحسين" = some i ∧
    (wrap_up rec "" i room b).record.highlights = some "" ∧
    (wrap_up rec s "" room b).record.improvements = some "" ∧
    dictGet (wrap_up rec "" i room b).report.english "Strengths" = some "" ∧
    dictGet (wrap_up rec "" i room b).report.arabic "نقاط القوة" = some "" ∧
    dictGet (wrap_up rec s "" room b).report.english "Areas to Improve" = some "" ∧
    dictGet (wrap_up rec s "" room b).report.arabic "نقاط التحسين" = some "" ∧
    dictGet (wrap_up rec "" i room b).report.english "Strengths" ≠ some "N/A" ∧
    dictGet (wrap_up rec "" i room b).report.arabic "نقاط القوة" ≠ some "N/A" :=
  ⟨rfl, rfl, rfl, rfl, rfl, rfl, rfl, rfl, rfl, rfl,
   fun h => by
     rw [show dictGet (wrap_up rec "" i room b).report.english "Strengths" =
       some "" from rfl] at h
     exact absurd h (by decide),
   fun h => by
     rw [show dictGet (wrap_up rec "" i room b).report.arabic "نقاط القوة" =
       some "" from rfl] at h
     exact absurd h (by decide)⟩

/-- Witness for `report_bilingual_parity` at the spec's example scenario. -/
theorem report_bilingual_parity_witness :
    (wrap_up
      { purpose := some "job interview", occupation := some "engineer",
        estimated_skill := some "70%",
        practice_topic := some "job interview roleplay",
        highlights := none, improvements := none }
      "clear pronunciation" "grammar tenses" "room1" false).report.english.length = 6 ∧
    dictGet (wrap_up
      { purpose := some "job interview", occupation := some "engineer",
        estimated_skill := some "70%",
        practice_topic := some "job interview roleplay",
        highlights := none, improvements := none }
      "clear pronunciation" "grammar tenses" "room1" false).report.arabic "الهدف" =
      dictGet (wrap_up
      { purpose := some "job interview", occupation := some "engineer",
        estimated_skill := some "70%",
        practice_topic := some "job interview roleplay",
        highlights := none, improvements := none }
      "clear pronunciation" "grammar tenses" "room1" false).report.english "Purpose" ∧
    dictGet (wrap_up
      { purpose := some "job interview", occupation := some "engineer",
        estimated_skill := some "70%",
        practice_topic := some "job interview roleplay",
        highlights := none, improvements := none }
      "clear pronunciation" "grammar tenses" "room1" false).report.english "Purpose" =
      some "job interview" := by
  have T := report_bilingual_parity "job interview" "engineer" "70%"
    "job interview roleplay" "clear pronunciation" "grammar tenses" "room1" false
    LearnerRecord.init (by decide) (by decide) (by decide) (by decide)
    (by decide) (by decide)
  exact ⟨T.2.1, T.2.2.2.2.2.1, T.2.2.2.2.2.2.2.2.2.2.2.1⟩

/-- A character at or above code point 32 other than the double quote and
the backslash is emitted unescaped by the JSON encoder. -/
theorem jsonEscapeChar_of_ge32 (c : Char) (h32 : 32 ≤ c.toNat)
    (hq : c ≠ Char.ofNat 34) (hb : c ≠ Char.ofNat 92) :
    jsonEscapeChar c = String.singleton c := by
  have h10 : c ≠ Char.ofNat 10 := fun e => absurd (e ▸ h32) (by decide)
  have h9 : c ≠ Char.ofNat 9 := fun e => absurd (e ▸ h32) (by decide)
  have h13 : c ≠ Char.ofNat 13 := fun e => absurd (e ▸ h32) (by decide)
  have h8 : c ≠ Char.ofNat 8 := fun e => absurd (e ▸ h32) (by decide)
  have h12 : c ≠ Char.ofNat 12 := fun e => absurd (e ▸ h32) (by decide)
  have hlt : ¬ c.toNat < 32 := by omega
  unfold jsonEscapeChar
  rw [if_neg hq, if_neg hb, if_neg h10, if_neg h9, if_neg h13, if_neg h8,
    if_neg h12, if_neg hlt]

/-- Every non-ASCII character — the Arabic report labels included — is
emitted literally by the JSON encoder (`ensure_ascii=False`). -/
theorem jsonEscapeChar_nonascii (c : Char) (h : 128 ≤ c.toNat) :
    jsonEscapeChar c = String.singleton c :=
  jsonEscapeChar_of_ge32 c (by omega)
    (fun e => absurd (e ▸ h) (by decide))
    (fun e => absurd (e ▸ h) (by decide))

set_option maxRecDepth 10000 in
/-- C6: the report is stored under the key `lingua_feedback_<roomId>.json`
in the fixed bucket with content type `application/json`, and the body
is the UTF-8 encoding of the JSON text of the two-key object
`{"english": ..., "arabic": ...}` in which non-ASCII characters are
kept literal; the closed conjunct pins the serializer's exact output —
byte-for-byte the `json.dumps(report, ensure_ascii=False, indent=2)`
text — on the spec's example report. -/
theorem report_storage_contract (rec : LearnerRecord) (s i room : String) (b : Bool) :
    (wrap_up rec s i room b).put.key = "lingua_feedback_" ++ room ++ ".json" ∧
    (wrap_up rec s i room b).put.bucket = "lingua-feedback-data" ∧
    (wrap_up rec s i room b).put.contentType = "application/json" ∧
    (wrap_up rec s i room b).put.body =
      (dumpsReport (wrap_up rec s i room b).report).toUTF8 ∧
    dumpsReport (wrap_up .init "clear pronunciation" "grammar tenses" "room1" false).report =
      "\x7b\n  \"english\": \x7b\n    \"Purpose\": \"N/A\",\n    \"Occupation\": \"N/A\",\n    \"Skill Estimate\": \"N/A\",\n    \"Scenario Practiced\": \"N/A\",\n    \"Strengths\": \"clear pronunciation\",\n    \"Areas to Improve\": \"grammar tenses\"\n  \x7d,\n  \"arabic\": \x7b\n    \"الهدف\": \"N/A\",\n    \"المهنة\": \"N/A\",\n    \"المستوى المقدر\": \"N/A\",\n    \"المشهد التدريبي\": \"N/A\",\n    \"نقاط القوة\": \"clear pronunciation\",\n    \"نقاط التحسين\": \"grammar tenses\"\n  \x7d\n\x7d" ∧
    (∀ c : Char, 128 ≤ c.toNat → jsonEscapeChar c = String.singleton c) :=
  ⟨rfl, rfl, rfl, rfl, rfl, fun c hc => jsonEscapeChar_nonascii c hc⟩

/-- Witness for `report_storage_contract`: concrete key and the literal
emission of the Arabic letter alef (code point 1575). -/
theorem report_storage_contract_witness :
    (wrap_up LearnerRecord.init "a" "b" "r1" false).put.key =
      "lingua_feedback_" ++ "r1" ++ ".json" ∧
    jsonEscapeChar (Char.ofNat 1575) = String.singleton (Char.ofNat 1575) := by
  have T := report_storage_contract LearnerRecord.init "a" "b" "r1" false
  exact ⟨T.1, T.2.2.2.2.2 (Char.ofNat 1575) (by decide)⟩

/-- Counterexample to C5 as stated over all six fields: on a profile whose
`highlights` field is unset, `wrap_up` with strengths argument
`"good pronunciation"` renders that argument — not the `"N/A"`
sentinel — under the strengths key of both mappings, because those two
entries never consult the profile. -/
theorem sentinel_six_fields_cex :
    LearnerRecord.init.highlights = none ∧
    dictGet (wrap_up LearnerRecord.init "good pronunciation" "more practice"
      "room1" false).report.english "Strengths" = some "good pronunciation" ∧
    dictGet (wrap_up LearnerRecord.init "good pronunciation" "more practice"
      "room1" false).report.arabic "نقاط القوة" = some "good pronunciation" ∧
    (some "good pronunciation" : Option String) ≠ some "N/A" :=
  ⟨rfl, rfl, rfl, by decide⟩

/-- C5 (amended): an unset field renders as the `"N/A"` sentinel in both
mappings for the four intake-collected fields (purpose, occupation,
estimated skill, practice topic); the strengths and improvements
entries instead come verbatim from the `wrap_up` arguments, with no
sentinel fallback. -/
theorem sentinel_intake_fields (rec : LearnerRecord) (s i room : String) (b : Bool) :
    (rec.purpose = none →
      dictGet (wrap_up rec s i room b).report.english "Purpose" = some "N/A" ∧
      dictGet (wrap_up rec s i room b).report.arabic "الهدف" = some "N/A") ∧
    (rec.occupation = none →
      dictGet (wrap_up rec s i room b).report.english "Occupation" = some "N/A" ∧
      dictGet (wrap_up rec s i room b).report.arabic "المهنة" = some "N/A") ∧
    (rec.estimated_skill = none →
      dictGet (wrap_up rec s i room b).report.english "Skill Estimate" = some "N/A" ∧
      dictGet (wrap_up rec s i room b).report.arabic "المستوى المقدر" = some "N/A") ∧
    (rec.practice_topic = none →
      dictGet (wrap_up rec s i room b).report.english "Scenario Practiced" = some "N/A" ∧
      dictGet (wrap_up rec s i room b).report.arabic "المشهد التدريبي" = some "N/A") ∧
    dictGet (wrap_up rec s i room b).report.english "Strengths" = some s ∧
    dictGet (wrap_up rec s i room b).report.arabic "نقاط القوة" = some s ∧
    dictGet (wrap_up rec s i room b).report.english "Areas to Improve" = some i ∧
    dictGet (wrap_up rec s i room b).report.arabic "نقاط التحسين" = some i := by
  refine ⟨fun h => ⟨?_, ?_⟩, fun h => ⟨?_, ?_⟩, fun h => ⟨?_, ?_⟩, fun h => ⟨?_, ?_⟩,
    rfl, rfl, rfl, rfl⟩
  · rw [show dictGet (wrap_up rec s i room b).report.english "Purpose" =
      some (pyOr rec.purpose "N/A") from rfl, h]; rfl
  · rw [show dictGet (wrap_up rec s i room b).report.arabic "الهدف" =
      some (pyOr rec.purpose "N/A") from rfl, h]; rfl
  · rw [show dictGet (wrap_up rec s i room b).report.english "Occupation" =
      some (pyOr rec.occupation "N/A") from rfl, h]; rfl
  · rw [show dictGet (wrap_up rec s i room b).report.arabic "المهنة" =
      some (pyOr rec.occupation "N/A") from rfl, h]; rfl
  · rw [show dictGet (wrap_up rec s i room b).report.english "Skill Estimate" =
      some (pyOr rec.estimated_skill "N/A") from rfl, h]; rfl
  · rw [show dictGet (wrap_up rec s i room b).report.arabic "المستوى المقدر" =
      some (pyOr rec.estimated_skill "N/A") from rfl, h]; rfl
  · rw [show dictGet (wrap_up rec s i room b).report.english "Scenario Practiced" =
      some (pyOr rec.practice_topic "N/A") from rfl, h]; rfl
  · rw [show dictGet (wrap_up rec s i room b).report.arabic "المشهد التدريبي" =
      some (pyOr rec.practice_topic "N/A") from rfl, h]; rfl

/-- Witness for `sentinel_intake_fields` on the all-`None` record. -/
theorem sentinel_intake_fields_witness :
    dictGet (wrap_up LearnerRecord.init "s" "i" "room" false).report.english
      "Purpose" = some "N/A" ∧
    dictGet (wrap_up LearnerRecord.init "s" "i" "room" false).report.arabic
      "الهدف" = some "N/A" ∧
    dictGet (wrap_up LearnerRecord.init "s" "i" "room" false).report.english
      "Scenario Practiced" = some "N/A" ∧
    dictGet (wrap_up LearnerRecord.init "s" "i" "room" false).report.english
      "Strengths" = some "s" := by
  have T := sentinel_intake_fields LearnerRecord.init "s" "i" "room" false
  exact ⟨(T.1 rfl).1, (T.1 rfl).2, (T.2.2.2.1 rfl).1, T.2.2.2.2.1⟩

end Lingua
